import Mathlib

/-!
Verification of the STEMI post-PCI mortality-risk scoring pipeline
(`streamlit_app.py`).  The pipeline converts a mapping of raw form inputs
(categorical strings and integer slider values) to a fixed-order numeric
vector, applies the loaded scaler to the whole vector, asks the classifier
for the positive-class probability, classifies against the fixed 0.147
cutoff, and emits rule-based clinical advisories for out-of-range values.

The embedding below mirrors the prediction block of `streamlit_app.py`
(lines 131–255).  The serialized classifier is opaque, so it is a parameter
`predictProba : List (Option ℚ) → ℚ`; the scaler's fitted statistics are
parameters `mean scale : List ℚ` (one entry per column of the transformed
frame, which is how a fitted `StandardScaler.transform` operates); floats
are modelled as rationals.  A pandas cell that would hold `NaN` (a feature
name absent from `input_data`) is modelled as `none`.
-/

namespace STEMI

/-- A raw form value: either a categorical string (selectbox) or an integer
slider value. -/
inductive RawValue where
  | str : String → RawValue
  | num : Int → RawValue
deriving DecidableEq

/-- Display-name → model-feature-name table (`feature_mapping`,
streamlit_app.py lines 139–148). -/
def feature_mapping : List (String × String) :=
  [ ("Age", "Age")
  , ("Hb", "Hb")
  , ("AST", "AST")
  , ("Respiratory support", "Respiratory_support")
  , ("Beta blocker", "Beta_blocker")
  , ("Cardiotonics", "Cardiotonics")
  , ("Statins", "Statins")
  , ("Stent for IRA", "Stent_for_IRA") ]

/-- Stent label → integer code table (`stent_mapping`, lines 182–186). -/
def stent_mapping : List (String × ℚ) :=
  [ ("No stent", 0)
  , ("Drug-eluting stent (DES)", 1)
  , ("Bare-metal stent (BMS)", 2) ]

/-- Normal ranges for the monitored continuous variables (`normal_ranges`,
lines 132–136). -/
def normal_ranges : List (String × (Int × Int)) :=
  [ ("Age", (18, 120))
  , ("Hb", (130, 175))
  , ("AST", (10, 40)) ]

/-- One iteration of the `input_data` loop (lines 177–191).  A lookup
failure (`KeyError` on `feature_mapping[display_name]` or on
`stent_mapping[value]`) is `none`; for the stent field a non-string value
would also raise a `KeyError`, hence `none`.  Every other string value is
mapped by `1 if value == "Yes" else 0`; numbers pass through. -/
def normalizeEntry (display_name : String) (v : RawValue) : Option (String × ℚ) :=
  match List.lookup display_name feature_mapping with
  | none => none
  | some model_feature =>
    if display_name = "Stent for IRA" then
      match v with
      | RawValue.str s =>
        match List.lookup s stent_mapping with
        | some code => some (model_feature, code)
        | none => none
      | RawValue.num _ => none
    else
      match v with
      | RawValue.str s => some (model_feature, if s = "Yes" then 1 else 0)
      | RawValue.num n => some (model_feature, (n : ℚ))

/-- The whole `input_data` construction loop (lines 176–191): normalize the
entries in iteration order; the first raised `KeyError` aborts the call. -/
def normalizeInputs : List (String × RawValue) → Option (List (String × ℚ))
  | [] => some []
  | p :: rest =>
    match normalizeEntry p.1 p.2, normalizeInputs rest with
    | some q, some m => some (q :: m)
    | _, _ => none

/-- `pd.DataFrame([input_data], columns=features)` (line 198): one cell per
feature name, in `features` order, looked up by name in `input_data`; a
name absent from `input_data` yields a `NaN` cell, modelled as `none`. -/
def assemble (input_data : List (String × ℚ)) (features : List String) :
    List (Option ℚ) :=
  features.map (fun f => List.lookup f input_data)

/-- `scaler.transform(df)` (line 204): a fitted `StandardScaler` maps every
column `i` of the frame through `(x - mean i) / scale i`; `NaN` cells pass
through unchanged. -/
def transform : List ℚ → List ℚ → List (Option ℚ) → List (Option ℚ)
  | m :: ms, s :: ss, x :: xs =>
      x.map (fun q => (q - m) / s) :: transform ms ss xs
  | _, _, _ => []

/-- The fixed clinical cutoff from line 208. -/
def threshold : ℚ := 147 / 1000

/-- `risk_status = "High Risk" if prob >= 0.147 else "Low Risk"`
(line 208). -/
def risk_status (prob : ℚ) : String :=
  if prob ≥ threshold then "High Risk" else "Low Risk"

/-- Advisory string for low hemoglobin (lines 227–228). -/
def hbLowMsg (value : Int) : String :=
  "<b>Hemoglobin (" ++ toString value ++
    " g/L)</b>: Below normal range (130-175 g/L). Consider anemia workup and iron studies."

/-- Advisory string for high hemoglobin (lines 230–231). -/
def hbHighMsg (value : Int) : String :=
  "<b>Hemoglobin (" ++ toString value ++
    " g/L)</b>: Above normal range (130-175 g/L). Evaluate for polycythemia."

/-- Advisory string for elevated AST (lines 234–235). -/
def astHighMsg (value : Int) : String :=
  "<b>AST (" ++ toString value ++
    " U/L)</b>: Elevated above normal (10-40 U/L). May indicate ongoing myocardial injury or liver dysfunction."

/-- Advisory string for advanced age (lines 238–239). -/
def ageMsg (value : Int) : String :=
  "<b>Age (" ++ toString value ++
    " years)</b>: Advanced age is an independent risk factor for adverse outcomes in STEMI."

/-- Whether one loop iteration (lines 218–223) records `display_name` in
`abnormal_vars`: the name is monitored and the value is strictly outside
its normal range. -/
def entryAbnormal (display_name : String) (value : Int) : Bool :=
  match List.lookup display_name normal_ranges with
  | none => false
  | some (lower, upper) => value < lower || value > upper

/-- The advisory strings one loop iteration (lines 218–239) appends for
`display_name`: reached only when the value is strictly outside the normal
range, then dispatched on the name (Hb low/high, AST high only,
Age only when `value > 75`). -/
def entryAdvice (display_name : String) (value : Int) : List String :=
  match List.lookup display_name normal_ranges with
  | none => []
  | some (lower, upper) =>
    if value < lower ∨ value > upper then
      if display_name = "Hb" then
        if value < lower then [hbLowMsg value] else [hbHighMsg value]
      else if display_name = "AST" then
        if value > upper then [astHighMsg value] else []
      else if display_name = "Age" then
        if value > 75 then [ageMsg value] else []
      else []
    else []

/-- The `advice` list accumulated by the loop over `inputs.items()`
(lines 215–239), in input iteration order.  The monitored names only ever
carry integer slider values in the application, so a string value
contributes nothing. -/
def advisories (inputs : List (String × RawValue)) : List String :=
  (inputs.map (fun p =>
    match p.2 with
    | RawValue.num n => entryAdvice p.1 n
    | RawValue.str _ => [])).flatten

/-- The `abnormal_vars` list accumulated by the same loop. -/
def abnormal_vars (inputs : List (String × RawValue)) : List String :=
  (inputs.map (fun p =>
    match p.2 with
    | RawValue.num n => if entryAbnormal p.1 n then [p.1] else []
    | RawValue.str _ => [])).flatten

/-- Result of one prediction request: positive-class probability, risk
label, advisory strings and abnormal-parameter names. -/
structure ScoreResult where
  prob : ℚ
  risk : String
  advice : List String
  abnormal : List String
deriving DecidableEq

/-- The whole prediction block (lines 173–255) for fixed loaded artifacts:
normalize the raw inputs, build the frame in `features` order, scale it,
ask the classifier for the positive-class probability, classify against
the cutoff, and run the advisory loop on the raw inputs. -/
def score (predictProba : List (Option ℚ) → ℚ) (mean scale : List ℚ)
    (features : List String) (inputs : List (String × RawValue)) :
    Option ScoreResult :=
  match normalizeInputs inputs with
  | none => none
  | some input_data =>
    let prob := predictProba (transform mean scale (assemble input_data features))
    some { prob := prob
         , risk := risk_status prob
         , advice := advisories inputs
         , abnormal := abnormal_vars inputs }

/-- Modelled from the spec: the ordered feature-name list read from the
`features.txt` artifact, which is not under `src/`.  Per the spec the list
holds the model feature names, one per line, whitespace normalized to
underscores; these are exactly the eight model names of `feature_mapping`,
the only layout on which this pipeline's columns can align with its
inputs. -/
def defaultFeatures : List String :=
  [ "Age", "Hb", "AST", "Respiratory_support", "Beta_blocker"
  , "Cardiotonics", "Statins", "Stent_for_IRA" ]

/-- A concrete opaque classifier used to instantiate witnesses: a constant
probability function. -/
def samplePredict : List (Option ℚ) → ℚ := fun _ => 1 / 10

/-- Identity scaler statistics (mean 0, scale 1 for all eight columns),
used to instantiate witnesses. -/
def idMean : List ℚ := [0, 0, 0, 0, 0, 0, 0, 0]

/-- Identity scales for the eight columns. -/
def idScale : List ℚ := [1, 1, 1, 1, 1, 1, 1, 1]

/-- A full valid form submission, in the form's insertion order. -/
def sampleInputs : List (String × RawValue) :=
  [ ("Age", RawValue.num 65)
  , ("Hb", RawValue.num 130)
  , ("AST", RawValue.num 30)
  , ("Respiratory support", RawValue.str "No")
  , ("Beta blocker", RawValue.str "Yes")
  , ("Cardiotonics", RawValue.str "No")
  , ("Statins", RawValue.str "Yes")
  , ("Stent for IRA", RawValue.str "Drug-eluting stent (DES)") ]

/-- The normalized `input_data` produced from `sampleInputs`. -/
def sampleData : List (String × ℚ) :=
  [ ("Age", 65), ("Hb", 130), ("AST", 30), ("Respiratory_support", 0)
  , ("Beta_blocker", 1), ("Cardiotonics", 0), ("Statins", 1)
  , ("Stent_for_IRA", 1) ]

/-- Inputs for the Age=80 scenario: all other values well inside their
normal ranges. -/
def age80Inputs : List (String × RawValue) :=
  [ ("Age", RawValue.num 80)
  , ("Hb", RawValue.num 140)
  , ("AST", RawValue.num 20)
  , ("Respiratory support", RawValue.str "No")
  , ("Beta blocker", RawValue.str "No")
  , ("Cardiotonics", RawValue.str "No")
  , ("Statins", RawValue.str "No")
  , ("Stent for IRA", RawValue.str "No stent") ]

/-- Inputs for the Hb=90 scenario. -/
def hb90Inputs : List (String × RawValue) :=
  [ ("Age", RawValue.num 65)
  , ("Hb", RawValue.num 90)
  , ("AST", RawValue.num 30)
  , ("Respiratory support", RawValue.str "No")
  , ("Beta blocker", RawValue.str "No")
  , ("Cardiotonics", RawValue.str "No")
  , ("Statins", RawValue.str "No")
  , ("Stent for IRA", RawValue.str "No stent") ]

/-- Inputs for the AST=250 scenario. -/
def ast250Inputs : List (String × RawValue) :=
  [ ("Age", RawValue.num 65)
  , ("Hb", RawValue.num 140)
  , ("AST", RawValue.num 250)
  , ("Respiratory support", RawValue.str "No")
  , ("Beta blocker", RawValue.str "No")
  , ("Cardiotonics", RawValue.str "No")
  , ("Statins", RawValue.str "No")
  , ("Stent for IRA", RawValue.str "No stent") ]

/-- Inputs with Age=65, Hb=140, AST=20, all inside the normal ranges. -/
def normalInputs : List (String × RawValue) :=
  [ ("Age", RawValue.num 65)
  , ("Hb", RawValue.num 140)
  , ("AST", RawValue.num 20)
  , ("Respiratory support", RawValue.str "No")
  , ("Beta blocker", RawValue.str "No")
  , ("Cardiotonics", RawValue.str "No")
  , ("Statins", RawValue.str "No")
  , ("Stent for IRA", RawValue.str "No stent") ]

/-- Inputs for the AST=5 scenario (AST strictly below the lower normal
bound). -/
def ast5Inputs : List (String × RawValue) :=
  [ ("Age", RawValue.num 65)
  , ("Hb", RawValue.num 140)
  , ("AST", RawValue.num 5)
  , ("Respiratory support", RawValue.str "No")
  , ("Beta blocker", RawValue.str "No")
  , ("Cardiotonics", RawValue.str "No")
  , ("Statins", RawValue.str "No")
  , ("Stent for IRA", RawValue.str "No stent") ]

/-- C3: risk classification labels a prediction "High Risk" exactly when the
positive-class probability is ≥ 0.147 and "Low Risk" otherwise; probability
exactly 0.147 yields High, 0.146999 yields Low, and the cutoff is the fixed
constant 147/1000 baked into the classification function. -/
theorem C3_threshold_boundary :
    threshold = 147 / 1000
    ∧ risk_status (147 / 1000) = "High Risk"
    ∧ risk_status (146999 / 1000000) = "Low Risk"
    ∧ (∀ p : ℚ, risk_status p = if p ≥ 147 / 1000 then "High Risk" else "Low Risk") := by
  refine ⟨rfl, ?_, ?_, fun p => rfl⟩
  · simp only [risk_status, threshold]
    norm_num
  · simp only [risk_status, threshold]
    norm_num

/-- C5: categorical normalization maps "Yes" to 1 and "No" to 0 for every
binary field, maps the three stent labels to the codes 0, 1, 2, and passes
numeric inputs through unchanged. -/
theorem C5_categorical_normalization :
    normalizeEntry "Respiratory support" (RawValue.str "Yes")
        = some ("Respiratory_support", 1)
    ∧ normalizeEntry "Respiratory support" (RawValue.str "No")
        = some ("Respiratory_support", 0)
    ∧ normalizeEntry "Beta blocker" (RawValue.str "Yes") = some ("Beta_blocker", 1)
    ∧ normalizeEntry "Beta blocker" (RawValue.str "No") = some ("Beta_blocker", 0)
    ∧ normalizeEntry "Cardiotonics" (RawValue.str "Yes") = some ("Cardiotonics", 1)
    ∧ normalizeEntry "Cardiotonics" (RawValue.str "No") = some ("Cardiotonics", 0)
    ∧ normalizeEntry "Statins" (RawValue.str "Yes") = some ("Statins", 1)
    ∧ normalizeEntry "Statins" (RawValue.str "No") = some ("Statins", 0)
    ∧ normalizeEntry "Stent for IRA" (RawValue.str "No stent")
        = some ("Stent_for_IRA", 0)
    ∧ normalizeEntry "Stent for IRA" (RawValue.str "Drug-eluting stent (DES)")
        = some ("Stent_for_IRA", 1)
    ∧ normalizeEntry "Stent for IRA" (RawValue.str "Bare-metal stent (BMS)")
        = some ("Stent_for_IRA", 2)
    ∧ (∀ n : Int, normalizeEntry "Age" (RawValue.num n) = some ("Age", (n : ℚ)))
    ∧ (∀ n : Int, normalizeEntry "Hb" (RawValue.num n) = some ("Hb", (n : ℚ)))
    ∧ (∀ n : Int, normalizeEntry "AST" (RawValue.num n) = some ("AST", (n : ℚ)))
    ∧ (∀ n : Int, normalizeEntry "Respiratory support" (RawValue.num n)
        = some ("Respiratory_support", (n : ℚ)))
    ∧ (∀ n : Int, normalizeEntry "Beta blocker" (RawValue.num n)
        = some ("Beta_blocker", (n : ℚ)))
    ∧ (∀ n : Int, normalizeEntry "Cardiotonics" (RawValue.num n)
        = some ("Cardiotonics", (n : ℚ)))
    ∧ (∀ n : Int, normalizeEntry "Statins" (RawValue.num n)
        = some ("Statins", (n : ℚ))) :=
  ⟨rfl, rfl, rfl, rfl, rfl, rfl, rfl, rfl, rfl, rfl, rfl,
   fun _ => rfl, fun _ => rfl, fun _ => rfl, fun _ => rfl,
   fun _ => rfl, fun _ => rfl, fun _ => rfl⟩

/-- C7: the code emits no age advisory for Age=80 — 80 lies inside the
(18, 120) outer range, so the `value > 75` branch is never reached; the age
advisory can only fire for an age above 120, although the code's own
high-risk card documents age > 75 as a risk factor. -/
theorem C7_age_advisory_missing :
    advisories age80Inputs = []
    ∧ abnormal_vars age80Inputs = []
    ∧ entryAdvice "Age" 80 = []
    ∧ entryAbnormal "Age" 80 = false
    ∧ ((80 : Int) > 75)
    ∧ entryAdvice "Age" 121 = [ageMsg 121]
    ∧ (score samplePredict idMean idScale defaultFeatures age80Inputs).map
        ScoreResult.advice = some [] := by decide

/-- C8: Hb=90 yields exactly the anemia-workup advisory (which interpolates
"90"), AST=250 yields exactly the myocardial-injury advisory (which
interpolates "250"), and Age=65, Hb=140, AST=20 yields an empty advisory
list. -/
theorem C8_advisory_scenarios :
    advisories hb90Inputs = [hbLowMsg 90]
    ∧ hbLowMsg 90 =
        "<b>Hemoglobin (90 g/L)</b>: Below normal range (130-175 g/L). Consider anemia workup and iron studies."
    ∧ advisories ast250Inputs = [astHighMsg 250]
    ∧ astHighMsg 250 =
        "<b>AST (250 U/L)</b>: Elevated above normal (10-40 U/L). May indicate ongoing myocardial injury or liver dysfunction."
    ∧ advisories normalInputs = []
    ∧ abnormal_vars normalInputs = [] := by decide

/-- C10: an AST value strictly below 10 is recorded as an abnormal
parameter but appends no advisory (the AST advisory fires only above 40),
and values exactly at a range endpoint (Hb 130/175, AST 10/40) are not
flagged abnormal at all, since the range checks are strict. -/
theorem C10_strict_range_boundaries (v : Int) (hv : v < 10) :
    entryAbnormal "AST" v = true
    ∧ entryAdvice "AST" v = []
    ∧ abnormal_vars ast5Inputs = ["AST"]
    ∧ advisories ast5Inputs = []
    ∧ entryAbnormal "Hb" 130 = false
    ∧ entryAbnormal "Hb" 175 = false
    ∧ entryAbnormal "AST" 10 = false
    ∧ entryAbnormal "AST" 40 = false
    ∧ entryAdvice "Hb" 130 = []
    ∧ entryAdvice "Hb" 175 = []
    ∧ entryAdvice "AST" 10 = []
    ∧ entryAdvice "AST" 40 = [] := by
  have e1 : entryAbnormal "AST" v = (decide (v < 10) || decide (v > 40)) := rfl
  have e2 : entryAdvice "AST" v =
      (if v < 10 ∨ v > 40 then (if v > 40 then [astHighMsg v] else []) else []) := rfl
  refine ⟨?_, ?_, by decide, by decide, by decide, by decide, by decide, by decide,
    by decide, by decide, by decide, by decide⟩
  · rw [e1]
    simp [hv]
  · rw [e2, if_pos (Or.inl hv), if_neg (by omega)]

/-- Concrete instance of C10: the general part at v = 5. -/
theorem C10_strict_range_boundaries_witness :
    (5 : Int) < 10
    ∧ (entryAbnormal "AST" 5 = true
    ∧ entryAdvice "AST" 5 = []
    ∧ abnormal_vars ast5Inputs = ["AST"]
    ∧ advisories ast5Inputs = []
    ∧ entryAbnormal "Hb" 130 = false
    ∧ entryAbnormal "Hb" 175 = false
    ∧ entryAbnormal "AST" 10 = false
    ∧ entryAbnormal "AST" 40 = false
    ∧ entryAdvice "Hb" 130 = []
    ∧ entryAdvice "Hb" 175 = []
    ∧ entryAdvice "AST" 10 = []
    ∧ entryAdvice "AST" 40 = []) :=
  ⟨by decide, C10_strict_range_boundaries 5 (by decide)⟩

/-- Positionwise description of `scaler.transform`: every column `i` of the
frame is mapped through `(x - mean i) / scale i`. -/
lemma transform_getElem (mean scale : List ℚ) (v : List (Option ℚ)) (i : ℕ)
    (hm : i < mean.length) (hs : i < scale.length) (hv : i < v.length) :
    (transform mean scale v)[i]? =
      some ((v.get ⟨i, hv⟩).map
        (fun x => (x - mean.get ⟨i, hm⟩) / scale.get ⟨i, hs⟩)) := by
  induction mean generalizing scale v i with
  | nil => simp at hm
  | cons m ms ih =>
    cases scale with
    | nil => simp at hs
    | cons s ss =>
      cases v with
      | nil => simp at hv
      | cons x xs =>
        cases i with
        | zero => simp [transform]
        | succ n =>
          simp only [transform, List.getElem?_cons_succ, List.get_cons_succ]
          exact ih ss xs n (by simpa using hm) (by simpa using hs)
            (by simpa using hv)

/-- C1 (amended): `scaler.transform` standardizes EVERY position of the
feature vector — categorical and ordinal columns included — replacing the
value at position `i` with `(value - mean i) / scale i`; a position passes
through numerically unchanged only when its fitted statistics happen to be
mean 0 and scale 1, not because it is excluded from standardization.  The
concrete scaling fact (mean 130, scale 20, raw 130 ↦ 0) is the `i = 0`
instance, checked in the witness. -/
theorem C1_full_vector_standardization (mean scale : List ℚ)
    (v : List (Option ℚ)) (i : ℕ)
    (hm : i < mean.length) (hs : i < scale.length) (hv : i < v.length) :
    (transform mean scale v)[i]? =
      some ((v.get ⟨i, hv⟩).map
        (fun x => (x - mean.get ⟨i, hm⟩) / scale.get ⟨i, hs⟩)) :=
  transform_getElem mean scale v i hm hs hv

/-- Concrete instance of C1 (amended): a continuous column with mean 130
and scale 20 maps the raw value 130 to 0. -/
theorem C1_full_vector_standardization_witness :
    (transform [130] [20] [some 130])[0]? = some (some 0) := by
  have h := C1_full_vector_standardization [130] [20] [some 130] 0
    (by decide) (by decide) (by decide)
  rw [h]
  norm_num

/-- Scaler statistics refuting C1 as stated: the categorical `Statins`
column (position 6) carries fitted mean 1/2. -/
def cxMean : List ℚ := [0, 0, 0, 0, 0, 0, 1/2, 0]

/-- Scales for the refuting scaler statistics: all 1. -/
def cxScale : List ℚ := [1, 1, 1, 1, 1, 1, 1, 1]

/-- C1 counterexample: the code hands the FULL frame to `scaler.transform`
(line 204), so a categorical position is NOT passed through unscaled — with
fitted mean 1/2 on the `Statins` column (position 6), the raw value 1 is
standardized to 1/2 and the scaled frame differs from the raw frame there. -/
theorem C1_counterexample :
    defaultFeatures[6]? = some "Statins"
    ∧ (assemble sampleData defaultFeatures)[6]? = some (some 1)
    ∧ (transform cxMean cxScale (assemble sampleData defaultFeatures))[6]?
        = some (some (1/2))
    ∧ (transform cxMean cxScale (assemble sampleData defaultFeatures))[6]?
        ≠ (assemble sampleData defaultFeatures)[6]? := by
  have hv : assemble sampleData defaultFeatures =
      [some 65, some 130, some 30, some 0, some 1, some 0, some 1, some 1] := by
    decide
  rw [hv]
  refine ⟨by decide, rfl, ?_, ?_⟩
  · norm_num [transform, cxMean, cxScale]
  · norm_num [transform, cxMean, cxScale]

/-- The form inputs with the Age entry omitted. -/
def missingInputs : List (String × RawValue) :=
  [ ("Hb", RawValue.num 130)
  , ("AST", RawValue.num 30)
  , ("Respiratory support", RawValue.str "No")
  , ("Beta blocker", RawValue.str "Yes")
  , ("Cardiotonics", RawValue.str "No")
  , ("Statins", RawValue.str "Yes")
  , ("Stent for IRA", RawValue.str "Drug-eluting stent (DES)") ]

/-- The normalized `input_data` produced from `missingInputs`. -/
def missingData : List (String × ℚ) :=
  [ ("Hb", 130), ("AST", 30), ("Respiratory_support", 0), ("Beta_blocker", 1)
  , ("Cardiotonics", 0), ("Statins", 1), ("Stent_for_IRA", 1) ]

/-- C4 counterexample: omitting the required feature Age does NOT fail the
call — `pd.DataFrame([input_data], columns=features)` silently fills the
missing column with NaN (modelled `none`), the pipeline proceeds, and a
probability is still produced; no `MissingFeatureError` exists anywhere in
the code. -/
theorem C4_counterexample :
    normalizeInputs missingInputs = some missingData
    ∧ List.lookup "Age" missingData = none
    ∧ (assemble missingData defaultFeatures)[0]? = some none
    ∧ (score samplePredict idMean idScale defaultFeatures missingInputs).isSome
        = true
    ∧ (score samplePredict idMean idScale defaultFeatures missingInputs).map
        ScoreResult.prob = some (1 / 10) := by
  refine ⟨by decide, by decide, by decide, by decide, ?_⟩
  rfl

/-- C4 (amended): a feature name required by the feature list but absent
from the normalized input map yields a NaN cell (`none`) at its position in
the assembled frame; the score call does not abort there and still returns
a result. -/
theorem C4_missing_feature (predictProba : List (Option ℚ) → ℚ)
    (mean scale : List ℚ) (features : List String)
    (inputs : List (String × RawValue)) (input_data : List (String × ℚ))
    (f : String) (i : ℕ)
    (hn : normalizeInputs inputs = some input_data)
    (hf : features[i]? = some f)
    (hmiss : List.lookup f input_data = none) :
    (assemble input_data features)[i]? = some none
    ∧ (score predictProba mean scale features inputs).isSome = true := by
  constructor
  · simp [assemble, List.getElem?_map, hf, hmiss]
  · simp [score, hn]

/-- Concrete instance of C4 (amended): Age omitted, position 0 of the
frame is the NaN cell, the pipeline still returns a result. -/
theorem C4_missing_feature_witness :
    (normalizeInputs missingInputs = some missingData
      ∧ defaultFeatures[0]? = some "Age"
      ∧ List.lookup "Age" missingData = none)
    ∧ ((assemble missingData defaultFeatures)[0]? = some none
      ∧ (score samplePredict idMean idScale defaultFeatures missingInputs).isSome
          = true) :=
  ⟨⟨by decide, by decide, by decide⟩,
    C4_missing_feature samplePredict idMean idScale defaultFeatures
      missingInputs missingData "Age" 0 (by decide) (by decide) (by decide)⟩

/-- C6 counterexample: the out-of-set label "Maybe" on the binary field
Statins is silently coerced to the numeric code 0 — the call succeeds, no
error of any kind is raised. -/
theorem C6_counterexample :
    normalizeEntry "Statins" (RawValue.str "Maybe") = some ("Statins", 0)
    ∧ (normalizeEntry "Statins" (RawValue.str "Maybe")).isSome = true := by
  decide

/-- C6 (amended): only the stent field rejects an out-of-set label (the
`stent_mapping` lookup fails, raising a KeyError that aborts the single
call); every binary Yes/No field silently coerces ANY string other than
"Yes" — recognized or not — to 0. -/
theorem C6_invalid_categorical (s : String)
    (h1 : List.lookup s stent_mapping = none) (h2 : s ≠ "Yes") :
    normalizeEntry "Stent for IRA" (RawValue.str s) = none
    ∧ normalizeEntry "Statins" (RawValue.str s) = some ("Statins", 0)
    ∧ normalizeEntry "Respiratory support" (RawValue.str s)
        = some ("Respiratory_support", 0)
    ∧ normalizeEntry "Beta blocker" (RawValue.str s) = some ("Beta_blocker", 0)
    ∧ normalizeEntry "Cardiotonics" (RawValue.str s) = some ("Cardiotonics", 0) := by
  have e0 : normalizeEntry "Stent for IRA" (RawValue.str s) =
      (match List.lookup s stent_mapping with
       | some code => some (("Stent_for_IRA" : String), code)
       | none => none) := rfl
  have e1 : normalizeEntry "Statins" (RawValue.str s) =
      some (("Statins" : String), if s = "Yes" then (1 : ℚ) else 0) := rfl
  have e2 : normalizeEntry "Respiratory support" (RawValue.str s) =
      some (("Respiratory_support" : String), if s = "Yes" then (1 : ℚ) else 0) := rfl
  have e3 : normalizeEntry "Beta blocker" (RawValue.str s) =
      some (("Beta_blocker" : String), if s = "Yes" then (1 : ℚ) else 0) := rfl
  have e4 : normalizeEntry "Cardiotonics" (RawValue.str s) =
      some (("Cardiotonics" : String), if s = "Yes" then (1 : ℚ) else 0) := rfl
  refine ⟨?_, ?_, ?_, ?_, ?_⟩
  · rw [e0, h1]
  · rw [e1, if_neg h2]
  · rw [e2, if_neg h2]
  · rw [e3, if_neg h2]
  · rw [e4, if_neg h2]

/-- Concrete instance of C6 (amended) at the out-of-set label "Maybe". -/
theorem C6_invalid_categorical_witness :
    (List.lookup "Maybe" stent_mapping = none ∧ "Maybe" ≠ "Yes")
    ∧ (normalizeEntry "Stent for IRA" (RawValue.str "Maybe") = none
      ∧ normalizeEntry "Statins" (RawValue.str "Maybe") = some ("Statins", 0)
      ∧ normalizeEntry "Respiratory support" (RawValue.str "Maybe")
          = some ("Respiratory_support", 0)
      ∧ normalizeEntry "Beta blocker" (RawValue.str "Maybe")
          = some ("Beta_blocker", 0)
      ∧ normalizeEntry "Cardiotonics" (RawValue.str "Maybe")
          = some ("Cardiotonics", 0)) :=
  ⟨⟨by decide, by decide⟩,
    C6_invalid_categorical "Maybe" (by decide) (by decide)⟩

/-- C9: the pipeline is a pure function of the loaded artifacts and the raw
inputs — two calls with identical raw inputs against the same classifier,
scaler statistics and feature list return the identical result (probability,
risk label, advisory list and abnormal-parameter list alike). -/
theorem C9_determinism (predictProba : List (Option ℚ) → ℚ)
    (mean scale : List ℚ) (features : List String)
    (inputs inputs' : List (String × RawValue)) (h : inputs = inputs') :
    score predictProba mean scale features inputs
      = score predictProba mean scale features inputs' := by
  rw [h]

/-- Concrete instance of C9 at the sample form submission. -/
theorem C9_determinism_witness :
    score samplePredict idMean idScale defaultFeatures sampleInputs
      = score samplePredict idMean idScale defaultFeatures sampleInputs :=
  C9_determinism samplePredict idMean idScale defaultFeatures
    sampleInputs sampleInputs rfl

/-- Looking a key up in an association list with duplicate-free keys is
stable under permutation of the entries. -/
lemma lookup_eq_of_perm {α β : Type} [BEq α] [LawfulBEq α]
    {l₁ l₂ : List (α × β)} (h : l₁.Perm l₂) :
    (l₁.map Prod.fst).Nodup → ∀ k, List.lookup k l₁ = List.lookup k l₂ := by
  induction h with
  | nil => intro _ _; rfl
  | cons x h ih =>
    intro hnd k
    simp only [List.map_cons, List.nodup_cons] at hnd
    simp only [List.lookup]
    cases hkx : k == x.1 with
    | true => rfl
    | false => exact ih hnd.2 k
  | swap x y t =>
    intro hnd k
    simp only [List.map_cons, List.nodup_cons, List.mem_cons, not_or] at hnd
    have hne : y.1 ≠ x.1 := hnd.1.1
    simp only [List.lookup]
    cases hky : k == y.1 with
    | true =>
      cases hkx : k == x.1 with
      | true => exact absurd ((eq_of_beq hky).symm.trans (eq_of_beq hkx)) hne
      | false => rfl
    | false =>
      cases hkx : k == x.1 with
      | true => rfl
      | false => rfl
  | trans h₁ h₂ ih₁ ih₂ =>
    intro hnd k
    have hnd₂ := ((h₁.map Prod.fst).nodup_iff).mp hnd
    exact (ih₁ hnd k).trans (ih₂ hnd₂ k)

/-- Normalization succeeds on a permutation of the raw inputs exactly with
a correspondingly permuted `input_data`. -/
lemma normalizeInputs_perm {l₁ l₂ : List (String × RawValue)} (h : l₁.Perm l₂) :
    ∀ {m₁ : List (String × ℚ)}, normalizeInputs l₁ = some m₁ →
      ∃ m₂, normalizeInputs l₂ = some m₂ ∧ m₁.Perm m₂ := by
  induction h with
  | nil =>
    intro m₁ h₁
    exact ⟨m₁, h₁, List.Perm.refl m₁⟩
  | @cons x t₁ t₂ h ih =>
    intro m₁ h₁
    cases hq : normalizeEntry x.1 x.2 with
    | none => simp [normalizeInputs, hq] at h₁
    | some q =>
      cases hr : normalizeInputs t₁ with
      | none => simp [normalizeInputs, hq, hr] at h₁
      | some m =>
        simp only [normalizeInputs, hq, hr] at h₁
        obtain ⟨m₂, hm₂, hp⟩ := ih hr
        refine ⟨q :: m₂, ?_, ?_⟩
        · simp [normalizeInputs, hq, hm₂]
        · rw [← Option.some.inj h₁]
          exact hp.cons q
  | @swap x y t =>
    intro m₁ h₁
    cases hy : normalizeEntry y.1 y.2 with
    | none => simp [normalizeInputs, hy] at h₁
    | some qy =>
      cases hx : normalizeEntry x.1 x.2 with
      | none => simp [normalizeInputs, hy, hx] at h₁
      | some qx =>
        cases ht : normalizeInputs t with
        | none => simp [normalizeInputs, hy, hx, ht] at h₁
        | some mt =>
          simp only [normalizeInputs, hy, hx, ht] at h₁
          refine ⟨qx :: qy :: mt, by simp [normalizeInputs, hy, hx, ht], ?_⟩
          rw [← Option.some.inj h₁]
          exact List.Perm.swap qx qy mt
  | trans h₁ h₂ ih₁ ih₂ =>
    intro m₁ hm₁
    obtain ⟨m₂, hm₂, p₁⟩ := ih₁ hm₁
    obtain ⟨m₃, hm₃, p₂⟩ := ih₂ hm₂
    exact ⟨m₃, hm₃, p₁.trans p₂⟩

/-- C2 (amended): the frame cell at position `i` is exactly the value
looked up under the name `features[i]` in the normalized input map, so the
classifier's input vector and hence the probability are invariant under any
reordering of the raw-input entries (keys being duplicate-free); the
advisory list is invariant only up to permutation — its order follows the
raw-input iteration order. -/
theorem C2_order_invariance (predictProba : List (Option ℚ) → ℚ)
    (mean scale : List ℚ) (features : List String)
    (inputs inputs' : List (String × RawValue))
    (nd nd' : List (String × ℚ)) (i : ℕ)
    (hperm : inputs.Perm inputs')
    (hn : normalizeInputs inputs = some nd)
    (hn' : normalizeInputs inputs' = some nd')
    (hkeys : (nd.map Prod.fst).Nodup) :
    (assemble nd features)[i]? = (features[i]?).map (fun f => List.lookup f nd)
    ∧ assemble nd features = assemble nd' features
    ∧ (score predictProba mean scale features inputs).map ScoreResult.prob
        = (score predictProba mean scale features inputs').map ScoreResult.prob
    ∧ (advisories inputs).Perm (advisories inputs') := by
  obtain ⟨m₂, hm₂, hp⟩ := normalizeInputs_perm hperm hn
  rw [hn'] at hm₂
  obtain rfl := Option.some.inj hm₂
  have hassemble : assemble nd features = assemble nd' features := by
    apply List.map_congr_left
    intro f _
    exact lookup_eq_of_perm hp hkeys f
  refine ⟨List.getElem?_map _ _ _, hassemble, ?_, ?_⟩
  · simp [score, hn, hn', hassemble]
  · exact (hperm.map _).flatten

/-- The sample form submission with its first two entries exchanged. -/
def sampleInputsSwapped : List (String × RawValue) :=
  [ ("Hb", RawValue.num 130)
  , ("Age", RawValue.num 65)
  , ("AST", RawValue.num 30)
  , ("Respiratory support", RawValue.str "No")
  , ("Beta blocker", RawValue.str "Yes")
  , ("Cardiotonics", RawValue.str "No")
  , ("Statins", RawValue.str "Yes")
  , ("Stent for IRA", RawValue.str "Drug-eluting stent (DES)") ]

/-- The normalized `input_data` produced from `sampleInputsSwapped`. -/
def sampleDataSwapped : List (String × ℚ) :=
  [ ("Hb", 130), ("Age", 65), ("AST", 30), ("Respiratory_support", 0)
  , ("Beta_blocker", 1), ("Cardiotonics", 0), ("Statins", 1)
  , ("Stent_for_IRA", 1) ]

/-- Concrete instance of C2 (amended): the sample submission against its
reordering, at frame position 0. -/
theorem C2_order_invariance_witness :
    (assemble sampleData defaultFeatures)[0]?
        = (defaultFeatures[0]?).map (fun f => List.lookup f sampleData)
    ∧ assemble sampleData defaultFeatures
        = assemble sampleDataSwapped defaultFeatures
    ∧ (score samplePredict idMean idScale defaultFeatures sampleInputs).map
        ScoreResult.prob
        = (score samplePredict idMean idScale defaultFeatures
            sampleInputsSwapped).map ScoreResult.prob
    ∧ (advisories sampleInputs).Perm (advisories sampleInputsSwapped) :=
  C2_order_invariance samplePredict idMean idScale defaultFeatures
    sampleInputs sampleInputsSwapped sampleData sampleDataSwapped 0
    (by decide) (by decide) (by decide) (by decide)

/-- Raw inputs with two abnormal labs, Hb entry before AST entry. -/
def abInputsA : List (String × RawValue) :=
  [ ("Age", RawValue.num 65)
  , ("Hb", RawValue.num 90)
  , ("AST", RawValue.num 250)
  , ("Respiratory support", RawValue.str "No")
  , ("Beta blocker", RawValue.str "No")
  , ("Cardiotonics", RawValue.str "No")
  , ("Statins", RawValue.str "No")
  , ("Stent for IRA", RawValue.str "No stent") ]

/-- The same entries with the Hb and AST entries exchanged. -/
def abInputsB : List (String × RawValue) :=
  [ ("Age", RawValue.num 65)
  , ("AST", RawValue.num 250)
  , ("Hb", RawValue.num 90)
  , ("Respiratory support", RawValue.str "No")
  , ("Beta blocker", RawValue.str "No")
  , ("Cardiotonics", RawValue.str "No")
  , ("Statins", RawValue.str "No")
  , ("Stent for IRA", RawValue.str "No stent") ]

/-- C2 counterexample: for two raw-input mappings holding the same
key-value pairs in different iteration orders, the probability agrees but
the advisory LIST does not — the advisory loop walks the raw inputs in
iteration order, so the result is not invariant under key reordering as
the claim states. -/
theorem C2_counterexample :
    abInputsA.Perm abInputsB
    ∧ (score samplePredict idMean idScale defaultFeatures abInputsA).map
        ScoreResult.prob
        = (score samplePredict idMean idScale defaultFeatures abInputsB).map
            ScoreResult.prob
    ∧ advisories abInputsA = [hbLowMsg 90, astHighMsg 250]
    ∧ advisories abInputsB = [astHighMsg 250, hbLowMsg 90]
    ∧ advisories abInputsA ≠ advisories abInputsB
    ∧ (score samplePredict idMean idScale defaultFeatures abInputsA).map
        ScoreResult.advice
        ≠ (score samplePredict idMean idScale defaultFeatures abInputsB).map
            ScoreResult.advice :=
  ⟨by decide, by rfl, by decide, by decide, by decide, by decide⟩

end STEMI
